import Mathlib

/-!
Verification of the seat-inventory / booking core of the airlinesAPI
repository (Node.js + MySQL).  The JavaScript source in
`src/models/flightSeatsModel.js`, `src/models/ticketModel.js` and
`src/controllers/ticketController.js` is shallowly embedded below:

* the database is a value of type `DB` (association lists for the
  `flight_seats`, `flights`, `aircraft`, `users` and `tickets` tables);
* every model function that runs all of its statements on a single
  pooled connection inside one transaction is embedded as a function
  `DB → Except String DB` — an `.error` result means the transaction
  was rolled back and the store is unchanged;
* `createTicket` and `updateTicket` open their own transaction but call
  `bookSeat` / `releaseSeat`, which run on *separate* pooled connections
  and commit independently.  They are therefore embedded as functions
  returning `Except String α × DB`, where the second component is the
  externally observable database state after the call — it can differ
  from the initial state even when the result is an error, exactly as
  in the source, where the final `rollback()` only undoes the writes of
  the coordinator's own connection.
* a potential failure of the terminal SQL `INSERT`/`UPDATE` statement is
  modelled by an explicit `Bool` parameter (`insertFails`/`updateFails`).

Numbers that the JavaScript code manipulates (prices, multipliers,
percentages) are embedded as `ℚ`; a JavaScript `undefined`/`null`
numeric value (e.g. a dynamic field access that misses every column of
the SQL row object) is `Option.none`, and an arithmetic result that
would be `NaN` is also propagated as `none`.
-/

namespace AirlinesAPI

/-! ### Small JavaScript helpers -/

/-- Boolean test that the first list is a prefix of the second, used to implement `String.prototype.includes`. -/
def charsPref : List Char → List Char → Bool
  | [], _ => true
  | _ :: _, [] => false
  | a :: as, b :: bs => a == b && charsPref as bs

/-- Does `sub` occur as a contiguous sublist? -/
def charsSub (sub : List Char) : List Char → Bool
  | [] => sub.isEmpty
  | c :: cs => charsPref sub (c :: cs) || charsSub sub cs

/-- JavaScript `s.includes(sub)`. -/
def strIncludes (s sub : String) : Bool :=
  charsSub sub.data s.data

/-- JavaScript Math.floor of a non-negative rational, as a `Nat`
(seat counts and capacities in the source are non-negative). -/
def jsFloor (q : ℚ) : Nat := (⌊q⌋).toNat

/-- JavaScript Math.ceil of a non-negative rational, as a `Nat`. -/
def jsCeil (q : ℚ) : Nat := (⌈q⌉).toNat

/-- JavaScript `s.toLowerCase()` (ASCII, which covers the gender values). -/
def jsToLower (s : String) : String := ⟨s.data.map Char.toLower⟩

deriving instance DecidableEq for Except

/-! ### Seat Layout Generator (`flightSeatsModel.js`, lines 358–493) -/

/-- Result of `calculateSeatDistribution`. -/
structure SeatDistribution where
  first : Nat
  business : Nat
  economy : Nat
  woman_only : Nat
deriving Repr, DecidableEq

/-- Source function `calculateSeatDistribution(aircraftModel, totalCapacity)`:
per-class seat counts from a percentage table keyed by model family;
economy is the remainder. -/
def calculateSeatDistribution (aircraftModel : String) (totalCapacity : Nat) :
    SeatDistribution :=
  let ps : ℚ × ℚ × ℚ :=
    if strIncludes aircraftModel "A320" || strIncludes aircraftModel "737" then
      (0.08, 0.22, 0.10)
    else if strIncludes aircraftModel "A330" || strIncludes aircraftModel "777" then
      (0.10, 0.25, 0.05)
    else if strIncludes aircraftModel "CRJ" || strIncludes aircraftModel "E190" then
      (0.05, 0.15, 0.05)
    else
      (0.05, 0.15, 0.10)
  let firstClassSeats := jsFloor (totalCapacity * ps.1)
  let businessClassSeats := jsFloor (totalCapacity * ps.2.1)
  let womanOnlySeats := jsFloor (totalCapacity * ps.2.2)
  let economyClassSeats := totalCapacity - (firstClassSeats + businessClassSeats + womanOnlySeats)
  { first := firstClassSeats
    business := businessClassSeats
    economy := economyClassSeats
    woman_only := womanOnlySeats }

/-- Seats per row keyed by model family (local in `generateSeatLayouts`). -/
def seatsPerRowFor (aircraftModel : String) : Nat :=
  if strIncludes aircraftModel "A330" || strIncludes aircraftModel "777" ||
      strIncludes aircraftModel "787" then 8
  else if strIncludes aircraftModel "CRJ" || strIncludes aircraftModel "E190" ||
      strIncludes aircraftModel "E175" then 4
  else 6

/-- Seat letters keyed by model family (local in `generateSeatLayouts`). -/
def seatLettersFor (aircraftModel : String) : List String :=
  if strIncludes aircraftModel "A330" || strIncludes aircraftModel "777" ||
      strIncludes aircraftModel "787" then
    ["A", "B", "C", "D", "E", "F", "G", "H"]
  else if strIncludes aircraftModel "CRJ" || strIncludes aircraftModel "E190" ||
      strIncludes aircraftModel "E175" then
    ["A", "B", "C", "D"]
  else
    ["A", "B", "C", "D", "E", "F"]

/-- The truncation loop of `generateSeatsForClass`: seats are pushed one by
one and the function returns as soon as the running count reaches
`maxSeats` (the check happens *after* each push, as in the source). -/
def pushSeats (maxSeats : Nat) : List String → Nat → List String
  | [], _ => []
  | c :: cs, count =>
      c :: (if count + 1 ≥ maxSeats then [] else pushSeats maxSeats cs (count + 1))

/-- Source function `generateSeatsForClass(startRow, endRow, seatLetters, maxSeats)`:
row-major `{row}{letter}` codes for rows `startRow..endRow`, truncated
once the class quota is reached. -/
def generateSeatsForClass (startRow endRow : Nat) (seatLetters : List String)
    (maxSeats : Nat) : List String :=
  let cells := (List.range' startRow (endRow + 1 - startRow)).flatMap
    (fun row => seatLetters.map (fun letter => toString row ++ letter))
  pushSeats maxSeats cells 0

/-- Output of `generateSeatLayouts`: one ordered seat-code list per class. -/
structure ClassLayouts where
  first : List String
  business : List String
  woman_only : List String
  economy : List String
deriving Repr, DecidableEq

/-- Source function `generateSeatLayouts(seatDistribution, aircraftModel)`: row numbering is
continuous across classes in the order first → business → woman_only →
economy. -/
def generateSeatLayouts (seatDistribution : SeatDistribution)
    (aircraftModel : String) : ClassLayouts :=
  let seatsPerRow := seatsPerRowFor aircraftModel
  let seatLetters := seatLettersFor aircraftModel
  let firstClassRows := jsCeil ((seatDistribution.first : ℚ) / seatsPerRow)
  let businessClassRows := jsCeil ((seatDistribution.business : ℚ) / seatsPerRow)
  let womanOnlyRows := jsCeil ((seatDistribution.woman_only : ℚ) / seatsPerRow)
  let economyClassRows := jsCeil ((seatDistribution.economy : ℚ) / seatsPerRow)
  { first := generateSeatsForClass 1 firstClassRows seatLetters seatDistribution.first
    business := generateSeatsForClass (firstClassRows + 1)
      (firstClassRows + businessClassRows) seatLetters seatDistribution.business
    woman_only := generateSeatsForClass (firstClassRows + businessClassRows + 1)
      (firstClassRows + businessClassRows + womanOnlyRows) seatLetters
      seatDistribution.woman_only
    economy := generateSeatsForClass (firstClassRows + businessClassRows + womanOnlyRows + 1)
      (firstClassRows + businessClassRows + womanOnlyRows + economyClassRows) seatLetters
      seatDistribution.economy }

/-- Association-list lookup used for the custom distribution object. -/
def assocFind (l : List (String × Nat)) (k : String) : Option Nat :=
  (l.find? (fun e => e.1 == k)).map (·.2)

/-- Source function `generateCustomSeatLayouts(configuration, aircraftModel, totalCapacity)`:
values `< 1` are fractions of capacity, values `≥ 1` absolute counts
(floor-rounded); if the configured sum exceeds capacity all counts are
scaled down proportionally with floor rounding; absent classes default
to 0 (configuration values are non-negative seat counts/fractions). -/
def generateCustomSeatLayouts (configuration : List (String × ℚ))
    (aircraftModel : String) (totalCapacity : Nat) : ClassLayouts :=
  let seatDistribution := configuration.map
    (fun e => (e.1, if e.2 < 1 then jsFloor (totalCapacity * e.2) else jsFloor e.2))
  let totalConfigured := (seatDistribution.map (·.2)).sum
  let scaled :=
    if totalCapacity < totalConfigured then
      seatDistribution.map
        (fun e => (e.1, jsFloor ((e.2 : ℚ) * ((totalCapacity : ℚ) / totalConfigured))))
    else seatDistribution
  let dist : SeatDistribution :=
    { first := (assocFind scaled "first").getD 0
      business := (assocFind scaled "business").getD 0
      economy := (assocFind scaled "economy").getD 0
      woman_only := (assocFind scaled "woman_only").getD 0 }
  generateSeatLayouts dist aircraftModel

/-! ### Data model: the relevant database tables -/

/-- One `flight_seats` row: the available/booked seat-code lists of a
`(flight_id, class)` pool (stored as JSON arrays in the table). -/
structure Pool where
  available : List String
  booked : List String
deriving Repr, DecidableEq

/-- The columns of a `flights` row that the booking core reads.  The four
multiplier columns are nullable (`DECIMAL(4,2) DEFAULT …`). -/
structure FlightRow where
  aircraft_id : Nat
  base_price : ℚ
  first_class_multiplier : Option ℚ
  business_class_multiplier : Option ℚ
  economy_class_multiplier : Option ℚ
  woman_only_multiplier : Option ℚ
deriving Repr, DecidableEq

/-- The columns of an `aircraft` row read by seat initialization. -/
structure AircraftRow where
  model : String
  capacity : Nat
deriving Repr, DecidableEq

/-- A `tickets` row (the fields owned by the booking core). -/
structure TicketRow where
  ticket_id : Nat
  user_id : Nat
  flight_id : Nat
  seat_number : String
  ticketClass : String
  price : ℚ
  payment_status : String
deriving Repr, DecidableEq

/-- The shared relational store: each table is an association list keyed
by its primary (or unique) key.  `users` maps `user_id` to the nullable
`gender` column. -/
structure DB where
  flight_seats : List ((Nat × String) × Pool)
  flights : List (Nat × FlightRow)
  aircraft : List (Nat × AircraftRow)
  users : List (Nat × Option String)
  tickets : List TicketRow
deriving Repr, DecidableEq

/-- Query `SELECT … FROM flight_seats WHERE flight_id = ? AND class = ?`. -/
def findPool (db : DB) (flightId : Nat) (seatClass : String) : Option Pool :=
  (db.flight_seats.find? (fun e => e.1.1 == flightId && e.1.2 == seatClass)).map (·.2)

/-- Statement `UPDATE flight_seats SET … WHERE flight_id = ? AND class = ?`. -/
def setPool (db : DB) (flightId : Nat) (seatClass : String) (p : Pool) : DB :=
  let rows := db.flight_seats.map
    (fun e => if e.1.1 == flightId && e.1.2 == seatClass then (e.1, p) else e)
  { db with flight_seats := rows }

/-- Query `SELECT … FROM flights WHERE flight_id = ?`. -/
def findFlight (db : DB) (flightId : Nat) : Option FlightRow :=
  (db.flights.find? (fun e => e.1 == flightId)).map (·.2)

/-- Query `SELECT … FROM aircraft WHERE aircraft_id = ?`. -/
def findAircraft (db : DB) (aircraftId : Nat) : Option AircraftRow :=
  (db.aircraft.find? (fun e => e.1 == aircraftId)).map (·.2)

/-- Query `SELECT gender FROM users WHERE user_id = ?`. -/
def findUser (db : DB) (userId : Nat) : Option (Option String) :=
  (db.users.find? (fun e => e.1 == userId)).map (·.2)

/-- Query `SELECT … FROM tickets WHERE ticket_id = ?`. -/
def findTicket (db : DB) (ticketId : Nat) : Option TicketRow :=
  (db.tickets.find? (fun e => e.ticket_id == ticketId)).map id

/-! ### Seat Inventory Store (`flightSeatsModel.js`, lines 10–274) -/

/-- The four pool rows inserted by `initializeFlightSeats` for one flight,
in the iteration order of `Object.entries(classLayouts)`; every pool
starts with `booked_seats = []`. -/
def initPoolEntries (flightId : Nat) (a : AircraftRow) :
    List ((Nat × String) × Pool) :=
  let classLayouts := generateSeatLayouts (calculateSeatDistribution a.model a.capacity) a.model
  [((flightId, "first"), ⟨classLayouts.first, []⟩),
   ((flightId, "business"), ⟨classLayouts.business, []⟩),
   ((flightId, "woman_only"), ⟨classLayouts.woman_only, []⟩),
   ((flightId, "economy"), ⟨classLayouts.economy, []⟩)]

/-- Source function `initializeFlightSeats(flightId, aircraftId)`: one transaction on one
connection; an `.error` result means the transaction was rolled back and
the store is unchanged.  A second initialization of the same flight hits
the `UNIQUE KEY (flight_id, class)` constraint and rolls back. -/
def initializeFlightSeats (db : DB) (flightId aircraftId : Nat) : Except String DB :=
  match findAircraft db aircraftId with
  | none => .error "Aircraft not found"
  | some a =>
      if db.flight_seats.any (fun e => e.1.1 == flightId) then
        .error "Duplicate entry for key unique_flight_class"
      else
        .ok { db with flight_seats := db.flight_seats ++ initPoolEntries flightId a }

/-- Source function `isSeatAvailable(flightId, seatClass, seatNumber)`: a missing pool row
yields `false`, not an error. -/
def isSeatAvailable (db : DB) (flightId : Nat) (seatClass seatNumber : String) : Bool :=
  match findPool db flightId seatClass with
  | none => false
  | some p => p.available.contains seatNumber

/-- Source function `bookSeat(flightId, seatClass, seatNumber)`: `SELECT … FOR UPDATE`,
check membership in `available`, `splice` the seat out of `available`
and `push` it onto `booked`, all in one transaction on one connection. -/
def bookSeat (db : DB) (flightId : Nat) (seatClass seatNumber : String) :
    Except String DB :=
  match findPool db flightId seatClass with
  | none => .error "Seat class not found for this flight"
  | some p =>
      if p.available.contains seatNumber then
        .ok (setPool db flightId seatClass
          ⟨p.available.erase seatNumber, p.booked ++ [seatNumber]⟩)
      else
        .error "Seat is not available"

/-- The row number the display sort extracts from a seat code:
`parseInt(code.match(/\d+/)[0])`, i.e. the first run of digits.
(Seat codes always contain a row number; on a digitless string the
JavaScript comparator would throw instead.) -/
def firstDigitRun : List Char → List Char
  | [] => []
  | c :: cs => if c.isDigit then c :: cs.takeWhile Char.isDigit else firstDigitRun cs

/-- Decimal value of a digit list. -/
def digitsToNat (ds : List Char) : Nat :=
  ds.foldl (fun n c => 10 * n + (c.toNat - 48)) 0

/-- Row number of a seat code, as parsed by the display-sort comparator. -/
def seatRowNum (code : String) : Nat :=
  digitsToNat (firstDigitRun code.data)

/-- The order produced by the comparator `(a, b) => rowA - rowB` with
`localeCompare` tie-break: row number ascending, then the code itself. -/
def seatLeB (a b : String) : Bool :=
  decide (seatRowNum a < seatRowNum b) ||
    (seatRowNum a == seatRowNum b && decide (a ≤ b))

/-- The cosmetic re-sort applied to `available` by `releaseSeat`. -/
def sortSeats (l : List String) : List String :=
  l.insertionSort (fun a b => seatLeB a b)

/-- Source function `releaseSeat(flightId, seatClass, seatNumber)`: symmetric to
`bookSeat`; on success `available` is re-sorted for display. -/
def releaseSeat (db : DB) (flightId : Nat) (seatClass seatNumber : String) :
    Except String DB :=
  match findPool db flightId seatClass with
  | none => .error "Seat class not found for this flight"
  | some p =>
      if p.booked.contains seatNumber then
        .ok (setPool db flightId seatClass
          ⟨sortSeats (p.available ++ [seatNumber]), p.booked.erase seatNumber⟩)
      else
        .error "Seat is not currently booked"

/-- Source function `validateWomanOnlySeat(gender)`: `gender && gender.toLowerCase() ===
'female'`; `null`/`undefined`/`""` are falsy, so a missing attribute is
ineligible. -/
def validateWomanOnlySeat (gender : Option String) : Bool :=
  match gender with
  | none => false
  | some g => !g.isEmpty && jsToLower g == "female"

/-- The four pool rows inserted by `reconfigureFlightSeats`, in the
iteration order of `Object.entries`; every pool starts empty. -/
def reconfigPoolEntries (flightId : Nat) (classLayouts : ClassLayouts) :
    List ((Nat × String) × Pool) :=
  [((flightId, "first"), ⟨classLayouts.first, []⟩),
   ((flightId, "business"), ⟨classLayouts.business, []⟩),
   ((flightId, "woman_only"), ⟨classLayouts.woman_only, []⟩),
   ((flightId, "economy"), ⟨classLayouts.economy, []⟩)]

/-- Effect of the destructive `DELETE FROM flight_seats WHERE flight_id = ?`
followed by the per-class `INSERT`s of `reconfigureFlightSeats`. -/
def reconfiguredDB (db : DB) (flightId : Nat) (classLayouts : ClassLayouts) : DB :=
  let rows := db.flight_seats.filter (fun e => !(e.1.1 == flightId)) ++
    reconfigPoolEntries flightId classLayouts
  { db with flight_seats := rows }

/-- Source function `reconfigureFlightSeats(flightId, configuration)`: one transaction on
one connection.  First the guard `JSON_LENGTH(booked_seats) > 0` on any
pool of the flight, then flight and aircraft lookups, then a destructive
`DELETE` of the flight's pool rows followed by fresh `INSERT`s. -/
def reconfigureFlightSeats (db : DB) (flightId : Nat)
    (configuration : List (String × ℚ)) : Except String DB :=
  if db.flight_seats.any (fun e => e.1.1 == flightId && !e.2.booked.isEmpty) then
    .error "Cannot reconfigure flight with existing bookings"
  else
    match findFlight db flightId with
    | none => .error "Flight not found"
    | some f =>
        match findAircraft db f.aircraft_id with
        | none => .error "Aircraft not found"
        | some a =>
            .ok (reconfiguredDB db flightId
              (generateCustomSeatLayouts configuration a.model a.capacity))

/-! ### Pricing Calculator
(`ticketModel.js` lines 332–353 and `ticketController.js` lines 212–225) -/

/-- Dynamic field access `flight[name]` on the row object returned by the
`SELECT` inside `createTicket`, whose column list is `base_price` and the
four multiplier columns.  Any other name is a missing property
(JavaScript `undefined`, embedded as `none`). -/
def ctSelField (f : FlightRow) (name : String) : Option ℚ :=
  if name == "base_price" then some f.base_price
  else if name == "first_class_multiplier" then f.first_class_multiplier
  else if name == "business_class_multiplier" then f.business_class_multiplier
  else if name == "economy_class_multiplier" then f.economy_class_multiplier
  else if name == "woman_only_multiplier" then f.woman_only_multiplier
  else none

/-- The price `createTicket` computes when the caller supplies none:
`flight.base_price * flight[ticketClass + "_multiplier"]`.  The built
field name matches a selected column only for `woman_only`; for the
other classes the factor is `undefined` and the product is `NaN`
(embedded as `none`). -/
def createTicketComputedPrice (f : FlightRow) (ticketClass : String) : Option ℚ :=
  (ctSelField f (ticketClass ++ "_multiplier")).map (fun m => f.base_price * m)

/-- Dynamic field access `flight[name]` on the row object returned by
`Flight.getFlightById`, whose `SELECT` list includes `f.base_price` but
*no* multiplier column at all. -/
def getFlightByIdField (f : FlightRow) (name : String) : Option ℚ :=
  if name == "base_price" then some f.base_price else none

/-- The controller's fallback table `defaultMultipliers` in `bookTicket`. -/
def defaultMultipliers (ticketClass : String) : Option ℚ :=
  if ticketClass == "economy" then some 1.0
  else if ticketClass == "business" then some 2.5
  else if ticketClass == "first" then some 4.0
  else if ticketClass == "woman_only" then some 1.2
  else none

/-- JavaScript `a || b` on numbers: `undefined`, `null` and `0` are falsy. -/
def jsOrQ (a b : Option ℚ) : Option ℚ :=
  match a with
  | none => b
  | some x => if x == 0 then b else some x

/-- The price `bookTicket` (controller, lines 212–225) computes when the
request carries none: `flight[ticketClass + "_class_multiplier"] ||
defaultMultipliers[ticketClass]`, times `flight.base_price`. -/
def bookTicketComputedPrice (f : FlightRow) (ticketClass : String) : Option ℚ :=
  (jsOrQ (getFlightByIdField f (ticketClass ++ "_class_multiplier"))
    (defaultMultipliers ticketClass)).map (fun m => f.base_price * m)

/-! ### Booking Transaction Coordinator (`ticketModel.js`, lines 294–511)

`createTicket` and `updateTicket` run `beginTransaction`/`commit`/
`rollback` on their own pooled connection, but the seat mutations they
perform go through `FlightSeats.bookSeat`/`releaseSeat`, which obtain a
*different* connection from the pool and commit on it before returning.
Both functions therefore return the externally observable database
state next to their `Except` result: after an error, that state carries
every seat mutation that had already committed on the other connections,
while the ticket-row write of the coordinator's own connection is undone
by its `rollback`. -/

/-- The request body of `createTicket` (`class` defaults to `'economy'`,
`payment_status` to `'pending'`; a price of `0` counts as absent because
the source guards with the falsy test `if (!price)`). -/
structure TicketData where
  user_id : Nat
  flight_id : Nat
  seat_number : String
  ticketClass : Option String
  price : Option ℚ
  payment_status : Option String
deriving Repr, DecidableEq

/-- JavaScript falsy test on an optional number (`undefined`/`null`/`0`). -/
def jsFalsyQ (v : Option ℚ) : Bool :=
  match v with
  | none => true
  | some x => x == 0

/-- JavaScript truthy test on an optional string (`""` is falsy). -/
def jsTruthyS (v : Option String) : Bool :=
  match v with
  | none => false
  | some s => !s.isEmpty

/-- Fresh `AUTO_INCREMENT` id for a fresh ticket row. -/
def nextTicketId (db : DB) : Nat :=
  (db.tickets.map (·.ticket_id)).foldr max 0 + 1

/-- Source function `createTicket(ticketData)` (`ticketModel.js`, lines 294–382), with the
failure of the terminal `INSERT INTO tickets` modelled by `insertFails`.
Steps in source order: availability check, woman-only eligibility,
price computation, `FlightSeats.bookSeat` (committed on its own
connection), ticket `INSERT`, commit.  A computed `NaN` price is
rejected by the `DECIMAL` column when the `INSERT` runs. -/
def createTicket (db : DB) (td : TicketData) (insertFails : Bool) :
    Except String Nat × DB :=
  let ticketClass := td.ticketClass.getD "economy"
  if !isSeatAvailable db td.flight_id ticketClass td.seat_number then
    (.error "Seat is not available", db)
  else
    let eligibility : Except String Unit :=
      if ticketClass == "woman_only" then
        match findUser db td.user_id with
        | none => .error "User not found"
        | some gender =>
            if validateWomanOnlySeat gender then .ok ()
            else .error "Woman-only seats can only be booked by female passengers"
      else .ok ()
    match eligibility with
    | .error e => (.error e, db)
    | .ok () =>
        let priced : Except String (Option ℚ) :=
          if jsFalsyQ td.price then
            match findFlight db td.flight_id with
            | none => .error "Flight not found"
            | some f => .ok (createTicketComputedPrice f ticketClass)
          else .ok td.price
        match priced with
        | .error e => (.error e, db)
        | .ok priceVal =>
            match bookSeat db td.flight_id ticketClass td.seat_number with
            | .error e => (.error e, db)
            | .ok db1 =>
                match priceVal with
                | none => (.error "Incorrect decimal value for column price", db1)
                | some price =>
                    if insertFails then (.error "Error creating ticket", db1)
                    else
                      let tid := nextTicketId db1
                      let row : TicketRow :=
                        { ticket_id := tid
                          user_id := td.user_id
                          flight_id := td.flight_id
                          seat_number := td.seat_number
                          ticketClass := ticketClass
                          price := price
                          payment_status := td.payment_status.getD "pending" }
                      (.ok tid, { db1 with tickets := db1.tickets ++ [row] })

/-- The request body of `updateTicket`: every field optional. -/
structure UpdateData where
  seat_number : Option String
  ticketClass : Option String
  price : Option ℚ
  payment_status : Option String
deriving Repr, DecidableEq

/-- Semantics of `COALESCE(?, column)` for the final `UPDATE tickets` statement. -/
def coalesce {α : Type} (v : Option α) (old : α) : α :=
  v.getD old

/-- The ticket-row `UPDATE` of `updateTicket` applied to the stored rows. -/
def applyTicketUpdate (db : DB) (ticketId : Nat) (seat cls : String)
    (price : Option ℚ) (payment : Option String) : DB :=
  let rows := db.tickets.map (fun t =>
    if t.ticket_id == ticketId then
      { t with seat_number := seat
               ticketClass := cls
               price := coalesce price t.price
               payment_status := coalesce payment t.payment_status }
    else t)
  { db with tickets := rows }

/-- Source function `updateTicket(id, ticketData)` (`ticketModel.js`, lines 390–511), with
a failure of the terminal `UPDATE tickets` modelled by `updateFails`.
When the seat or class changes: woman-only re-check, availability check
on the new seat, then `releaseSeat` of the old seat and `bookSeat` of
the new one — each committed immediately on its own connection — then
an optional price recalculation and the ticket-row `UPDATE` on the
coordinator's connection. -/
def updateTicket (db : DB) (ticketId : Nat) (td : UpdateData) (updateFails : Bool) :
    Except String Bool × DB :=
  match findTicket db ticketId with
  | none => (.error "Ticket not found", db)
  | some currentTicket =>
      let finalSeatNumber :=
        if jsTruthyS td.seat_number then td.seat_number.getD "" else currentTicket.seat_number
      let finalTicketClass :=
        if jsTruthyS td.ticketClass then td.ticketClass.getD "" else currentTicket.ticketClass
      let changing :=
        (jsTruthyS td.seat_number && td.seat_number.getD "" != currentTicket.seat_number) ||
          (jsTruthyS td.ticketClass && td.ticketClass.getD "" != currentTicket.ticketClass)
      let womanOnlyCheck : Except String Unit :=
        if changing &&
            (td.ticketClass == some "woman_only" &&
              currentTicket.ticketClass != "woman_only") then
          match findUser db currentTicket.user_id with
          | none => .error "TypeError: cannot read gender of undefined"
          | some gender =>
              if validateWomanOnlySeat gender then .ok ()
              else .error "Woman-only seats can only be booked by female passengers"
        else .ok ()
      match womanOnlyCheck with
      | .error e => (.error e, db)
      | .ok () =>
          -- the error case carries the externally observable state at the
          -- point of failure: a `bookSeat` failure happens after the
          -- `releaseSeat` transaction has already committed on its own
          -- connection, so the released seat stays released.
          let seatMove : Except (String × DB) DB :=
            if changing &&
                (finalSeatNumber != currentTicket.seat_number ||
                  finalTicketClass != currentTicket.ticketClass) then
              if !isSeatAvailable db currentTicket.flight_id finalTicketClass
                  finalSeatNumber then
                .error ("The requested seat is not available", db)
              else
                match releaseSeat db currentTicket.flight_id currentTicket.ticketClass
                    currentTicket.seat_number with
                | .error e => .error (e, db)
                | .ok db1 =>
                    match bookSeat db1 currentTicket.flight_id finalTicketClass
                        finalSeatNumber with
                    | .error e => .error (e, db1)
                    | .ok db2 => .ok db2
            else .ok db
          match seatMove with
          | .error ed => (.error ed.1, ed.2)
          | .ok db2 =>
              let finalPrice : Except String (Option ℚ) :=
                if jsTruthyS td.ticketClass &&
                    (td.ticketClass.getD "" != currentTicket.ticketClass) &&
                    jsFalsyQ td.price then
                  match findFlight db2 currentTicket.flight_id with
                  | none => .ok td.price
                  | some f =>
                      match createTicketComputedPrice f finalTicketClass with
                      | none => .error "Incorrect decimal value for column price"
                      | some p => .ok (some p)
                else .ok td.price
              match finalPrice with
              | .error e => (.error e, db2)
              | .ok priceVal =>
                  if updateFails then (.error "Error updating ticket", db2)
                  else
                    (.ok true, applyTicketUpdate db2 ticketId finalSeatNumber
                      finalTicketClass priceVal td.payment_status)

/-! ### Invariants and auxiliary notions used by the statements -/

/-- The seat-pool well-formedness invariant of the spec's data model:
seat codes are unique within a class, across both lists.  It implies
`available ∩ booked = ∅`. -/
def PoolInv (p : Pool) : Prop := (p.available ++ p.booked).Nodup

/-- Disjointness of the `available` and `booked` sets of a pool. -/
def availBookedDisjoint (p : Pool) : Prop := ∀ s ∈ p.available, s ∉ p.booked

/-- Did a booking attempt succeed? -/
def isOkB : Except String Unit → Bool
  | .ok _ => true
  | .error _ => false

/-- N booking attempts for the same `(flightId, class, seat)` executed in
sequence: the `FOR UPDATE` row lock of `bookSeat` holds for the whole
read-check-write of each attempt, so any concurrent schedule of the
attempts is equivalent to some serial order, which this function runs.
It returns each attempt's outcome and the final store. -/
def bookAttempts (db : DB) (flightId : Nat) (seatClass seatNumber : String) :
    Nat → List (Except String Unit) × DB
  | 0 => ([], db)
  | n + 1 =>
      match bookSeat db flightId seatClass seatNumber with
      | .ok db1 =>
          let r := bookAttempts db1 flightId seatClass seatNumber n
          (.ok () :: r.1, r.2)
      | .error e =>
          let r := bookAttempts db flightId seatClass seatNumber n
          (.error e :: r.1, r.2)

/-! ### Concrete stores for counterexamples and witnesses -/

/-- Flight 1: base price 200, multipliers stored in the record —
business 3, woman-only 3/2 (both differing from the controller's
defaults 2.5 and 1.2). -/
def flight1 : FlightRow :=
  { aircraft_id := 1
    base_price := 200
    first_class_multiplier := some 4
    business_class_multiplier := some 3
    economy_class_multiplier := some 1
    woman_only_multiplier := some (3 / 2) }

/-- A store with one economy pool holding the single available seat
`"1A"`, one flight, one male user, and no tickets. -/
def dbC1 : DB :=
  { flight_seats := [((1, "economy"), ⟨["1A"], []⟩)]
    flights := [(1, flight1)]
    aircraft := []
    users := [(1, some "male")]
    tickets := [] }

/-- Booking request for seat `"1A"`, economy, with an explicit price. -/
def tdC1 : TicketData :=
  { user_id := 1
    flight_id := 1
    seat_number := "1A"
    ticketClass := some "economy"
    price := some 100
    payment_status := none }

/-- A store where ticket 1 holds booked economy seat `"1A"` and seat
`"2B"` is available in the same pool. -/
def dbC2 : DB :=
  { flight_seats := [((1, "economy"), ⟨["2B"], ["1A"]⟩)]
    flights := [(1, flight1)]
    aircraft := []
    users := [(1, some "female")]
    tickets := [{ ticket_id := 1
                  user_id := 1
                  flight_id := 1
                  seat_number := "1A"
                  ticketClass := "economy"
                  price := 100
                  payment_status := "paid" }] }

/-- Update request moving ticket 1 to seat `"2B"` (same class). -/
def tdC2 : UpdateData :=
  { seat_number := some "2B"
    ticketClass := none
    price := none
    payment_status := none }

/-- A store with a woman-only pool, used for the eligibility witness. -/
def dbC6 : DB :=
  { flight_seats := [((1, "woman_only"), ⟨["11A", "11B"], []⟩)]
    flights := [(1, flight1)]
    aircraft := []
    users := [(7, some "male")]
    tickets := [] }

/-- Woman-only booking request by user 7 (gender `"male"`). -/
def tdC6 : TicketData :=
  { user_id := 7
    flight_id := 1
    seat_number := "11A"
    ticketClass := some "woman_only"
    price := some 100
    payment_status := none }

/-- A store used by the witnesses of the pool-level theorems: seats
`"1A"`, `"1B"` available, `"2A"` booked, in one economy pool. -/
def dbW : DB :=
  { flight_seats := [((1, "economy"), ⟨["1A", "1B"], ["2A"]⟩)]
    flights := []
    aircraft := []
    users := []
    tickets := [] }

/-- A store with bookings present, plus flight and aircraft rows, used by
the reconfiguration witness. -/
def dbR : DB :=
  { flight_seats := [((1, "economy"), ⟨["1B"], ["1A"]⟩), ((2, "economy"), ⟨["5C"], []⟩)]
    flights := [(1, flight1), (2, flight1)]
    aircraft := [(1, ⟨"A320", 12⟩)]
    users := []
    tickets := [] }

/-- The distribution the generator computes for an A320 of capacity 180. -/
def a320Dist : SeatDistribution := calculateSeatDistribution "A320" 180

/-- The layouts the generator computes for an A320 of capacity 180. -/
def a320Layouts : ClassLayouts := generateSeatLayouts a320Dist "A320"

/-! ### Helper lemmas about the inventory store -/

theorem find_map_setPool (l : List ((Nat × String) × Pool)) (fid : Nat) (cls : String)
    (q : Pool) (e0 : (Nat × String) × Pool)
    (h : l.find? (fun e => e.1.1 == fid && e.1.2 == cls) = some e0) :
    (l.map (fun e => if e.1.1 == fid && e.1.2 == cls then (e.1, q) else e)).find?
      (fun e => e.1.1 == fid && e.1.2 == cls) = some (e0.1, q) := by
  induction l with
  | nil => simp at h
  | cons a as ih =>
      rw [List.find?_cons] at h
      rw [List.map_cons, List.find?_cons]
      cases hc : (a.1.1 == fid && a.1.2 == cls) with
      | true =>
          rw [hc] at h
          injection h with h
          subst h
          simp [hc]
      | false =>
          rw [hc] at h
          simp only [hc, Bool.false_eq_true, if_false]
          exact ih h

theorem findPool_setPool (db : DB) (fid : Nat) (cls : String) (p q : Pool)
    (h : findPool db fid cls = some p) :
    findPool (setPool db fid cls q) fid cls = some q := by
  unfold findPool at h ⊢
  rcases Option.map_eq_some'.mp h with ⟨e0, he0, _⟩
  show ((DB.flight_seats _).find? _).map _ = _
  unfold setPool
  rw [find_map_setPool _ fid cls q e0 he0]
  rfl

theorem bookSeat_ok_of_mem (db : DB) (fid : Nat) (cls s : String) (p : Pool)
    (h : findPool db fid cls = some p) (hm : s ∈ p.available) :
    bookSeat db fid cls s =
      .ok (setPool db fid cls ⟨p.available.erase s, p.booked ++ [s]⟩) := by
  unfold bookSeat
  rw [h]
  simp only [if_pos (List.elem_eq_true_of_mem hm)]

theorem bookSeat_error_of_not_mem (db : DB) (fid : Nat) (cls s : String) (p : Pool)
    (h : findPool db fid cls = some p) (hm : s ∉ p.available) :
    bookSeat db fid cls s = .error "Seat is not available" := by
  unfold bookSeat
  rw [h]
  have hc : p.available.contains s = false := by
    cases hcv : p.available.contains s with
    | false => rfl
    | true => exact absurd (List.mem_of_elem_eq_true hcv) hm
  simp only [hc, if_false]
  rfl

theorem bookSeat_ok_inv (db db' : DB) (fid : Nat) (cls s : String)
    (h : bookSeat db fid cls s = .ok db') :
    ∃ p, findPool db fid cls = some p ∧ s ∈ p.available ∧
      db' = setPool db fid cls ⟨p.available.erase s, p.booked ++ [s]⟩ := by
  unfold bookSeat at h
  split at h
  · exact absurd h (by simp)
  · rename_i p hfp
    split at h
    · rename_i hc
      injection h with h
      exact ⟨p, hfp, List.mem_of_elem_eq_true hc, h.symm⟩
    · exact absurd h (by simp)

theorem releaseSeat_ok_of_mem (db : DB) (fid : Nat) (cls s : String) (p : Pool)
    (h : findPool db fid cls = some p) (hm : s ∈ p.booked) :
    releaseSeat db fid cls s =
      .ok (setPool db fid cls ⟨sortSeats (p.available ++ [s]), p.booked.erase s⟩) := by
  unfold releaseSeat
  rw [h]
  simp only [if_pos (List.elem_eq_true_of_mem hm)]

theorem releaseSeat_ok_inv (db db' : DB) (fid : Nat) (cls s : String)
    (h : releaseSeat db fid cls s = .ok db') :
    ∃ p, findPool db fid cls = some p ∧ s ∈ p.booked ∧
      db' = setPool db fid cls ⟨sortSeats (p.available ++ [s]), p.booked.erase s⟩ := by
  unfold releaseSeat at h
  split at h
  · exact absurd h (by simp)
  · rename_i p hfp
    split at h
    · rename_i hc
      injection h with h
      exact ⟨p, hfp, List.mem_of_elem_eq_true hc, h.symm⟩
    · exact absurd h (by simp)

theorem sortSeats_perm (l : List String) : List.Perm (sortSeats l) l :=
  List.perm_insertionSort _ l

/-! ### Claim C10 -/

/-- C10: for every store, flight id, class and seat such that no
`flight_seats` row exists for `(flightId, class)` — in particular for a
flight id present nowhere — `isSeatAvailable` returns `false` instead of
raising a not-found error, so a missing pool is indistinguishable from a
pool with no available seats at this query interface. -/
theorem isSeatAvailable_missing_pool (db : DB) (fid : Nat) (cls seat : String)
    (h : findPool db fid cls = none) :
    isSeatAvailable db fid cls seat = false := by
  simp [isSeatAvailable, h]

theorem isSeatAvailable_missing_pool_witness :
    findPool dbW 2 "first" = none ∧ isSeatAvailable dbW 2 "first" "1A" = false :=
  ⟨by decide, isSeatAvailable_missing_pool dbW 2 "first" "1A" (by decide)⟩

/-! ### Claim C7 -/

/-- C7: evaluation of both price computations at a flight whose record
stores `business_class_multiplier = 3` and `woman_only_multiplier = 3/2`.
The claim says the stored price is `basePrice ×` the class multiplier
read from the flight record, with the default table used only when the
record has none.  In fact the controller's lookup
`flight[class + "_class_multiplier"]` misses every column of the
`getFlightById` row (which selects no multiplier), so booking business
yields `200 × 2.5 = 500` from the default table instead of `200 × 3 =
600` from the record, and woman-only yields `200 × 1.2 = 240` instead of
`200 × 1.5 = 300`; the model's own lookup `flight[class + "_multiplier"]`
misses the selected columns for every class except `woman_only`, making
the computed price `NaN` (`none`). -/
theorem computedPrice_ignores_flight_multiplier :
    bookTicketComputedPrice flight1 "business" = some 500 ∧
    flight1.business_class_multiplier = some 3 ∧
    bookTicketComputedPrice flight1 "woman_only" = some 240 ∧
    flight1.woman_only_multiplier = some (3 / 2) ∧
    createTicketComputedPrice flight1 "business" = none ∧
    createTicketComputedPrice flight1 "economy" = none ∧
    createTicketComputedPrice flight1 "woman_only" = some 300 := by
  refine ⟨?_, rfl, ?_, rfl, ?_, ?_, ?_⟩
  · show some ((200 : ℚ) * 2.5) = some 500
    norm_num
  · show some ((200 : ℚ) * 1.2) = some 240
    norm_num
  · rfl
  · rfl
  · show some ((200 : ℚ) * (3 / 2)) = some 300
    norm_num

/-! ### Claim C8 -/

/-- C8: for aircraft model `"A320"` with capacity 180 the generator
produces exactly 180 seats, split floor-rounded as 14 first / 39
business / 18 woman-only / 109 economy, with 6 seats per row, letters
A–F, `{row}{letter}` codes generated row-major and truncated at each
class quota, and row numbers continuous across classes in the order
first (rows 1–3), business (4–10), woman-only (11–13), economy (14–32). -/
theorem a320_layout_matches_spec :
    a320Dist = ⟨14, 39, 109, 18⟩ ∧
    seatsPerRowFor "A320" = 6 ∧
    seatLettersFor "A320" = ["A", "B", "C", "D", "E", "F"] ∧
    a320Layouts.first.length = 14 ∧
    a320Layouts.business.length = 39 ∧
    a320Layouts.woman_only.length = 18 ∧
    a320Layouts.economy.length = 109 ∧
    a320Layouts.first.length + a320Layouts.business.length +
      a320Layouts.woman_only.length + a320Layouts.economy.length = 180 ∧
    a320Layouts.first = generateSeatsForClass 1 3 (seatLettersFor "A320") 14 ∧
    a320Layouts.business = generateSeatsForClass 4 10 (seatLettersFor "A320") 39 ∧
    a320Layouts.woman_only = generateSeatsForClass 11 13 (seatLettersFor "A320") 18 ∧
    a320Layouts.economy = generateSeatsForClass 14 32 (seatLettersFor "A320") 109 ∧
    a320Layouts.first.head? = some "1A" ∧
    a320Layouts.first.getLast? = some "3B" ∧
    a320Layouts.business.head? = some "4A" ∧
    a320Layouts.business.getLast? = some "10C" ∧
    a320Layouts.woman_only.head? = some "11A" ∧
    a320Layouts.woman_only.getLast? = some "13F" ∧
    a320Layouts.economy.head? = some "14A" ∧
    a320Layouts.economy.getLast? = some "32A" := by
  have hinc : (strIncludes "A320" "A320" || strIncludes "A320" "737") = true := by decide
  have hdist : a320Dist = ⟨14, 39, 109, 18⟩ := by
    unfold a320Dist calculateSeatDistribution
    rw [hinc]
    simp only [if_true]
    have hf : jsFloor ((180 : ℕ) * (0.08, 0.22, 0.10).1) = 14 := by
      unfold jsFloor
      have h : ⌊((180 : ℕ) : ℚ) * (0.08, 0.22, 0.10).1⌋ = (14 : ℤ) := by norm_num
      rw [h]
      rfl
    have hb : jsFloor ((180 : ℕ) * (0.08, 0.22, 0.10).2.1) = 39 := by
      unfold jsFloor
      have h : ⌊((180 : ℕ) : ℚ) * (0.08, 0.22, 0.10).2.1⌋ = (39 : ℤ) := by norm_num
      rw [h]
      rfl
    have hw : jsFloor ((180 : ℕ) * (0.08, 0.22, 0.10).2.2) = 18 := by
      unfold jsFloor
      have h : ⌊((180 : ℕ) : ℚ) * (0.08, 0.22, 0.10).2.2⌋ = (18 : ℤ) := by norm_num
      rw [h]
      rfl
    rw [hf, hb, hw]
  have hsl : seatLettersFor "A320" = ["A", "B", "C", "D", "E", "F"] := by decide
  have hsp : seatsPerRowFor "A320" = 6 := by decide
  have hc14 : jsCeil (((14 : ℕ) : ℚ) / ((6 : ℕ) : ℚ)) = 3 := by
    unfold jsCeil
    have h : ⌈((14 : ℕ) : ℚ) / ((6 : ℕ) : ℚ)⌉ = 3 := by
      rw [Int.ceil_eq_iff]
      norm_num
    rw [h]
    rfl
  have hc39 : jsCeil (((39 : ℕ) : ℚ) / ((6 : ℕ) : ℚ)) = 7 := by
    unfold jsCeil
    have h : ⌈((39 : ℕ) : ℚ) / ((6 : ℕ) : ℚ)⌉ = 7 := by
      rw [Int.ceil_eq_iff]
      norm_num
    rw [h]
    rfl
  have hc18 : jsCeil (((18 : ℕ) : ℚ) / ((6 : ℕ) : ℚ)) = 3 := by
    unfold jsCeil
    have h : ⌈((18 : ℕ) : ℚ) / ((6 : ℕ) : ℚ)⌉ = 3 := by
      rw [Int.ceil_eq_iff]
      norm_num
    rw [h]
    rfl
  have hc109 : jsCeil (((109 : ℕ) : ℚ) / ((6 : ℕ) : ℚ)) = 19 := by
    unfold jsCeil
    have h : ⌈((109 : ℕ) : ℚ) / ((6 : ℕ) : ℚ)⌉ = 19 := by
      rw [Int.ceil_eq_iff]
      norm_num
    rw [h]
    rfl
  have hlay : a320Layouts =
      ⟨generateSeatsForClass 1 3 ["A", "B", "C", "D", "E", "F"] 14,
       generateSeatsForClass 4 10 ["A", "B", "C", "D", "E", "F"] 39,
       generateSeatsForClass 11 13 ["A", "B", "C", "D", "E", "F"] 18,
       generateSeatsForClass 14 32 ["A", "B", "C", "D", "E", "F"] 109⟩ := by
    unfold a320Layouts
    rw [hdist]
    unfold generateSeatLayouts
    rw [hsl, hsp]
    simp only [hc14, hc39, hc18, hc109]
  rw [hdist, hlay, hsl, hsp]
  refine ⟨rfl, rfl, rfl, ?_⟩
  decide

/-! ### Claim C1 -/

/-- C1: evaluation of `createTicket` at a store holding the single
available economy seat `"1A"`, with the terminal ticket `INSERT`
failing.  The claim says the whole booking rolls back — the seat back in
`available`, absent from `booked`, no ticket row.  In fact the
`bookSeat` call committed on its own pooled connection before the
`INSERT` ran, so the coordinator's rollback cannot undo it: the final
pool is `available = [], booked = ["1A"]` and no ticket row exists. -/
theorem createTicket_insert_failure_keeps_seat_booked :
    (createTicket dbC1 tdC1 true).1 = .error "Error creating ticket" ∧
    findPool (createTicket dbC1 tdC1 true).2 1 "economy" = some ⟨[], ["1A"]⟩ ∧
    (createTicket dbC1 tdC1 true).2.tickets = [] := by
  decide

/-! ### Claim C2 -/

/-- C2: evaluation of `updateTicket` moving ticket 1 from seat `"1A"` to
seat `"2B"` with the terminal ticket `UPDATE` failing.  The claim says
that on failure at any step the original seat remains booked and the
ticket is unchanged.  In fact `releaseSeat` and `bookSeat` each
committed on their own pooled connection before the `UPDATE` ran, so the
failed operation leaves `available = ["1A"], booked = ["2B"]` while the
ticket row still names seat `"1A"` — a partial seat move is visible. -/
theorem updateTicket_failure_leaves_partial_move :
    (updateTicket dbC2 1 tdC2 true).1 = .error "Error updating ticket" ∧
    findPool (updateTicket dbC2 1 tdC2 true).2 1 "economy" = some ⟨["1A"], ["2B"]⟩ ∧
    (updateTicket dbC2 1 tdC2 true).2.tickets = dbC2.tickets := by
  decide

/-! ### Claim C6 -/

theorem validateWomanOnlySeat_false_of_not_female (g : Option String)
    (hg : g = none ∨ ∃ s, g = some s ∧ jsToLower s ≠ "female") :
    validateWomanOnlySeat g = false := by
  rcases hg with rfl | ⟨s, rfl, hs⟩
  · rfl
  · have hb : (jsToLower s == "female") = false := by
      simpa using hs
    simp [validateWomanOnlySeat, hb]

/-- C6: every booking of the woman-only class whose passenger's gender
attribute is missing (`none`, fail closed) or does not case-insensitively
equal `"female"` fails with the ineligibility error and leaves the store
untouched — no seat moves between `available` and `booked` and no ticket
row is created — regardless of whether the terminal `INSERT` would have
failed. -/
theorem createTicket_rejects_ineligible (db : DB) (td : TicketData) (g : Option String)
    (fails : Bool)
    (hcls : td.ticketClass.getD "economy" = "woman_only")
    (havail : isSeatAvailable db td.flight_id "woman_only" td.seat_number = true)
    (huser : findUser db td.user_id = some g)
    (hg : g = none ∨ ∃ s, g = some s ∧ jsToLower s ≠ "female") :
    createTicket db td fails =
      (.error "Woman-only seats can only be booked by female passengers", db) := by
  have hvg : validateWomanOnlySeat g = false :=
    validateWomanOnlySeat_false_of_not_female g hg
  simp [createTicket, hcls, havail, huser, hvg]

theorem createTicket_rejects_ineligible_witness :
    createTicket dbC6 tdC6 false =
      (.error "Woman-only seats can only be booked by female passengers", dbC6) :=
  createTicket_rejects_ineligible dbC6 tdC6 (some "male") false (by decide) (by decide)
    (by decide) (Or.inr ⟨"male", rfl, by decide⟩)

/-! ### Claim C3 -/

theorem bookAttempts_all_fail (db : DB) (fid : Nat) (cls s : String) (p : Pool)
    (h : findPool db fid cls = some p) (hm : s ∉ p.available) :
    ∀ n, bookAttempts db fid cls s n =
      (List.replicate n (.error "Seat is not available"), db) := by
  intro n
  induction n with
  | zero => rfl
  | succ m ih =>
      unfold bookAttempts
      rw [bookSeat_error_of_not_mem db fid cls s p h hm]
      simp only [ih, List.replicate_succ]

/-- C3: with the `(flightId, class)` row lock serializing the
read-check-write of every `bookSeat`, any schedule of `n ≥ 1` attempts to
book the same available seat is some serial execution: exactly one
attempt returns success, the other `n − 1` fail with the
seat-not-available error, and the pool moves the seat from `available`
to `booked` exactly once. -/
theorem concurrent_booking_one_success (db : DB) (fid : Nat) (cls s : String) (p : Pool)
    (h : findPool db fid cls = some p) (hnd : p.available.Nodup)
    (hm : s ∈ p.available) (hnb : s ∉ p.booked) (n : Nat) (hn : 1 ≤ n) :
    (bookAttempts db fid cls s n).1.length = n ∧
    (bookAttempts db fid cls s n).1.countP isOkB = 1 ∧
    (∀ r ∈ (bookAttempts db fid cls s n).1, isOkB r = false →
      r = .error "Seat is not available") ∧
    findPool (bookAttempts db fid cls s n).2 fid cls =
      some ⟨p.available.erase s, p.booked ++ [s]⟩ ∧
    (p.booked ++ [s]).count s = 1 := by
  obtain ⟨m, rfl⟩ : ∃ m, n = m + 1 := ⟨n - 1, by omega⟩
  have hbook := bookSeat_ok_of_mem db fid cls s p h hm
  have h1 : findPool (setPool db fid cls ⟨p.available.erase s, p.booked ++ [s]⟩) fid cls
      = some ⟨p.available.erase s, p.booked ++ [s]⟩ := findPool_setPool db fid cls p _ h
  have hs : s ∉ (⟨p.available.erase s, p.booked ++ [s]⟩ : Pool).available := by
    intro hmem
    exact absurd ((hnd.mem_erase_iff).mp hmem).1 (by simp)
  have hall := bookAttempts_all_fail _ fid cls s _ h1 hs m
  have hstep : bookAttempts db fid cls s (m + 1) =
      (.ok () :: List.replicate m (.error "Seat is not available"),
        setPool db fid cls ⟨p.available.erase s, p.booked ++ [s]⟩) := by
    unfold bookAttempts
    rw [hbook]
    simp only [hall]
  rw [hstep]
  have hz : (List.replicate m
      (Except.error "Seat is not available" : Except String Unit)).countP isOkB = 0 := by
    apply List.countP_eq_zero.mpr
    intro a ha
    rw [List.eq_of_mem_replicate ha]
    simp [isOkB]
  refine ⟨by simp, ?_, ?_, h1, ?_⟩
  · simp [List.countP_cons, hz, isOkB]
  · intro r hr hfalse
    rcases List.mem_cons.mp hr with rfl | hrep
    · exact absurd hfalse (by simp [isOkB])
    · exact List.eq_of_mem_replicate hrep
  · rw [List.count_append, List.count_eq_zero.mpr hnb]
    simp

theorem concurrent_booking_one_success_witness :
    (bookAttempts dbW 1 "economy" "1A" 3).1.length = 3 ∧
    (bookAttempts dbW 1 "economy" "1A" 3).1.countP isOkB = 1 ∧
    findPool (bookAttempts dbW 1 "economy" "1A" 3).2 1 "economy" =
      some ⟨["1B"], ["2A", "1A"]⟩ := by
  have h := concurrent_booking_one_success dbW 1 "economy" "1A" ⟨["1A", "1B"], ["2A"]⟩
    (by decide) (by decide) (by decide) (by decide) 3 (by decide)
  exact ⟨h.1, h.2.1, h.2.2.2.1⟩

/-! ### Claim C4 -/

theorem PoolInv_toDisjoint (p : Pool) (h : PoolInv p) : availBookedDisjoint p := by
  intro s hs hb
  exact (List.nodup_append.mp h).2.2 hs hb

theorem PoolInv_book (p : Pool) (s : String) (h : PoolInv p) (hm : s ∈ p.available) :
    PoolInv ⟨p.available.erase s, p.booked ++ [s]⟩ := by
  unfold PoolInv at h ⊢
  rcases List.nodup_append.mp h with ⟨na, nb, hdisj⟩
  apply List.nodup_append.mpr
  refine ⟨na.erase s, ?_, ?_⟩
  · apply List.nodup_append.mpr
    refine ⟨nb, List.nodup_singleton s, ?_⟩
    intro a ha hmem
    have := List.mem_singleton.mp hmem
    subst this
    exact hdisj hm ha
  · intro a haer hmem
    have hpair := (na.mem_erase_iff).mp haer
    rcases List.mem_append.mp hmem with hb' | hs'
    · exact hdisj hpair.2 hb'
    · exact hpair.1 (List.mem_singleton.mp hs')

theorem PoolInv_release (p : Pool) (s : String) (h : PoolInv p) (hm : s ∈ p.booked) :
    PoolInv ⟨sortSeats (p.available ++ [s]), p.booked.erase s⟩ := by
  unfold PoolInv at h ⊢
  rcases List.nodup_append.mp h with ⟨na, nb, hdisj⟩
  have hsa : s ∉ p.available := fun hs' => hdisj hs' hm
  have hnd2 : (p.available ++ [s]).Nodup := by
    apply List.nodup_append.mpr
    refine ⟨na, List.nodup_singleton s, ?_⟩
    intro a ha hmem
    have := List.mem_singleton.mp hmem
    subst this
    exact hsa ha
  have hsorted : (sortSeats (p.available ++ [s])).Nodup :=
    ((sortSeats_perm _).nodup_iff).mpr hnd2
  apply List.nodup_append.mpr
  refine ⟨hsorted, nb.erase s, ?_⟩
  intro a hasort hmem2
  have hmem : a ∈ p.available ++ [s] := ((sortSeats_perm _).mem_iff).mp hasort
  have hb : a ∈ p.booked := List.mem_of_mem_erase hmem2
  rcases List.mem_append.mp hmem with hav | hsng
  · exact hdisj hav hb
  · have := List.mem_singleton.mp hsng
    subst this
    exact ((nb.mem_erase_iff).mp hmem2).1 rfl

/-- C4: `available ∩ booked = ∅` holds for every pool row written by
initialization (`booked` starts empty) and by reconfiguration, and both
`bookSeat` and `releaseSeat` preserve the pool well-formedness invariant
`PoolInv` — seat codes unique across the two lists, which the spec's
data model guarantees at creation — and with it the disjointness of
`available` and `booked`, for every pool of the store. -/
theorem seatPool_disjointness :
    (∀ (fid : Nat) (a : AircraftRow), ∀ e ∈ initPoolEntries fid a,
        e.2.booked = [] ∧ availBookedDisjoint e.2) ∧
    (∀ (db db' : DB) (fid : Nat) (cls s : String), bookSeat db fid cls s = .ok db' →
        (∀ e ∈ db.flight_seats, PoolInv e.2) →
        ∀ e' ∈ db'.flight_seats, PoolInv e'.2 ∧ availBookedDisjoint e'.2) ∧
    (∀ (db db' : DB) (fid : Nat) (cls s : String), releaseSeat db fid cls s = .ok db' →
        (∀ e ∈ db.flight_seats, PoolInv e.2) →
        ∀ e' ∈ db'.flight_seats, PoolInv e'.2 ∧ availBookedDisjoint e'.2) ∧
    (∀ (fid : Nat) (L : ClassLayouts), ∀ e ∈ reconfigPoolEntries fid L,
        e.2.booked = [] ∧ availBookedDisjoint e.2) := by
  refine ⟨?_, ?_, ?_, ?_⟩
  · intro fid a e he
    simp only [initPoolEntries, List.mem_cons, List.mem_singleton] at he
    rcases he with rfl | rfl | rfl | rfl | hfalse
    all_goals first
      | exact ⟨rfl, fun s hs hb => by simp at hb⟩
      | simp at hfalse
  · intro db db' fid cls s hok hinv e' he'
    obtain ⟨p, hfp, hm, rfl⟩ := bookSeat_ok_inv db db' fid cls s hok
    have hpInv : PoolInv p := by
      unfold findPool at hfp
      rcases Option.map_eq_some'.mp hfp with ⟨e0, he0, h2⟩
      have := hinv e0 (List.mem_of_find?_eq_some he0)
      rwa [h2] at this
    simp only [setPool] at he'
    rcases List.mem_map.mp he' with ⟨e, he, heq⟩
    by_cases hc : (e.1.1 == fid && e.1.2 == cls) = true
    · rw [if_pos hc] at heq
      subst heq
      exact ⟨PoolInv_book p s hpInv hm,
        PoolInv_toDisjoint _ (PoolInv_book p s hpInv hm)⟩
    · rw [if_neg hc] at heq
      subst heq
      exact ⟨hinv e he, PoolInv_toDisjoint _ (hinv e he)⟩
  · intro db db' fid cls s hok hinv e' he'
    obtain ⟨p, hfp, hm, rfl⟩ := releaseSeat_ok_inv db db' fid cls s hok
    have hpInv : PoolInv p := by
      unfold findPool at hfp
      rcases Option.map_eq_some'.mp hfp with ⟨e0, he0, h2⟩
      have := hinv e0 (List.mem_of_find?_eq_some he0)
      rwa [h2] at this
    simp only [setPool] at he'
    rcases List.mem_map.mp he' with ⟨e, he, heq⟩
    by_cases hc : (e.1.1 == fid && e.1.2 == cls) = true
    · rw [if_pos hc] at heq
      subst heq
      exact ⟨PoolInv_release p s hpInv hm,
        PoolInv_toDisjoint _ (PoolInv_release p s hpInv hm)⟩
    · rw [if_neg hc] at heq
      subst heq
      exact ⟨hinv e he, PoolInv_toDisjoint _ (hinv e he)⟩
  · intro fid L e he
    simp only [reconfigPoolEntries, List.mem_cons, List.mem_singleton] at he
    rcases he with rfl | rfl | rfl | rfl | hfalse
    all_goals first
      | exact ⟨rfl, fun s hs hb => by simp at hb⟩
      | simp at hfalse

theorem seatPool_disjointness_witness :
    PoolInv ⟨["1B"], ["2A", "1A"]⟩ ∧ availBookedDisjoint ⟨["1B"], ["2A", "1A"]⟩ := by
  have hok : bookSeat dbW 1 "economy" "1A" =
      .ok (setPool dbW 1 "economy" ⟨["1B"], ["2A", "1A"]⟩) := by decide
  have h := (seatPool_disjointness).2.1 dbW
    (setPool dbW 1 "economy" ⟨["1B"], ["2A", "1A"]⟩) 1 "economy" "1A" hok
    (by
      intro e he
      simp [dbW] at he
      subst he
      exact (by decide : (["1A", "1B"] ++ ["2A"] : List String).Nodup))
  exact h ((1, "economy"), ⟨["1B"], ["2A", "1A"]⟩) (by decide)

/-! ### Claim C5 -/

/-- C5: if any pool of the flight has a non-empty `booked` list the
reconfiguration fails with the blocking error (and, being a rolled-back
single-connection transaction, leaves every pool unchanged); and any
successful reconfiguration implies every `booked` list of the flight was
empty, with all the flight's pool rows destructively replaced by the
freshly generated layouts inside the one transaction. -/
theorem reconfigure_blocked_or_replaces :
    (∀ (db : DB) (fid : Nat) (cfg : List (String × ℚ)),
        (∃ e ∈ db.flight_seats, e.1.1 = fid ∧ e.2.booked ≠ []) →
        reconfigureFlightSeats db fid cfg =
          .error "Cannot reconfigure flight with existing bookings") ∧
    (∀ (db db' : DB) (fid : Nat) (cfg : List (String × ℚ)),
        reconfigureFlightSeats db fid cfg = .ok db' →
        (∀ e ∈ db.flight_seats, e.1.1 = fid → e.2.booked = []) ∧
        ∃ f a, findFlight db fid = some f ∧ findAircraft db f.aircraft_id = some a ∧
          db' = reconfiguredDB db fid (generateCustomSeatLayouts cfg a.model a.capacity)) := by
  constructor
  · rintro db fid cfg ⟨e, he, hfid, hbooked⟩
    unfold reconfigureFlightSeats
    have hany : db.flight_seats.any (fun e => e.1.1 == fid && !e.2.booked.isEmpty) = true := by
      apply List.any_eq_true.mpr
      exact ⟨e, he, by simp [hfid, hbooked]⟩
    rw [if_pos hany]
  · intro db db' fid cfg hok
    unfold reconfigureFlightSeats at hok
    split at hok
    · exact absurd hok (by simp)
    · rename_i hany
      rw [Bool.not_eq_true, List.any_eq_false] at hany
      constructor
      · intro e he hfid
        have := hany e he
        simpa [hfid] using this
      · split at hok
        · exact absurd hok (by simp)
        · rename_i f hf
          split at hok
          · exact absurd hok (by simp)
          · rename_i a ha
            injection hok with hok
            exact ⟨f, a, hf, ha, hok.symm⟩

theorem reconfigure_blocked_or_replaces_witness :
    reconfigureFlightSeats dbR 1 [] =
      .error "Cannot reconfigure flight with existing bookings" ∧
    (∀ e ∈ dbR.flight_seats, e.1.1 = 2 → e.2.booked = []) := by
  constructor
  · exact (reconfigure_blocked_or_replaces).1 dbR 1 []
      ⟨((1, "economy"), ⟨["1B"], ["1A"]⟩), by decide, rfl, by decide⟩
  · have hok : reconfigureFlightSeats dbR 2 [] =
        .ok (reconfiguredDB dbR 2 (generateCustomSeatLayouts [] "A320" 12)) := rfl
    exact ((reconfigure_blocked_or_replaces).2 dbR _ 2 [] hok).1

/-! ### Claim C9 -/

/-- C9: booking an available seat and then releasing it restores the
pool's membership as sets: `booked` is exactly the original list again,
and `available` is a permutation of the original (the order may differ
only because `releaseSeat` re-sorts `available` for display). -/
theorem book_release_roundtrip (db : DB) (fid : Nat) (cls s : String) (p : Pool)
    (h : findPool db fid cls = some p) (hm : s ∈ p.available) (hnb : s ∉ p.booked) :
    ∃ db1 db2 p2,
      bookSeat db fid cls s = .ok db1 ∧
      releaseSeat db1 fid cls s = .ok db2 ∧
      findPool db2 fid cls = some p2 ∧
      List.Perm p2.available p.available ∧
      p2.booked = p.booked := by
  have hbook := bookSeat_ok_of_mem db fid cls s p h hm
  have h1 : findPool (setPool db fid cls ⟨p.available.erase s, p.booked ++ [s]⟩) fid cls
      = some ⟨p.available.erase s, p.booked ++ [s]⟩ := findPool_setPool db fid cls p _ h
  have hmb : s ∈ (⟨p.available.erase s, p.booked ++ [s]⟩ : Pool).booked := by simp
  have hrel := releaseSeat_ok_of_mem _ fid cls s _ h1 hmb
  refine ⟨_, _, ⟨sortSeats (p.available.erase s ++ [s]), (p.booked ++ [s]).erase s⟩,
    hbook, hrel, findPool_setPool _ fid cls _ _ h1, ?_, ?_⟩
  · refine (sortSeats_perm _).trans ?_
    refine (List.perm_append_comm).trans ?_
    exact (List.perm_cons_erase hm).symm
  · rw [List.erase_append_right _ hnb]
    simp

theorem book_release_roundtrip_witness :
    ∃ db1 db2 p2,
      bookSeat dbW 1 "economy" "1A" = .ok db1 ∧
      releaseSeat db1 1 "economy" "1A" = .ok db2 ∧
      findPool db2 1 "economy" = some p2 ∧
      List.Perm p2.available ["1A", "1B"] ∧
      p2.booked = ["2A"] :=
  book_release_roundtrip dbW 1 "economy" "1A" ⟨["1A", "1B"], ["2A"]⟩
    (by decide) (by decide) (by decide)

end AirlinesAPI
